import Mathlib

/-!
Shallow embedding of the `OpenAlexParser` class (main.py) of pyalexs3.

The remote object store (S3) is modelled by an `Env`: the paginated listing is
a single list of keys in listing order (the catalog consumes all pages before
filtering, so one flat list is faithful), per-key metadata lookup is a partial
function `meta` (`none` = the `head_object` call raises), and per-key download
success is a predicate `dlOk`.  The DuckDB connection is modelled by a list of
tables (name, temporary flag, row count); the engine's evaluation of the
`read_ndjson_auto` select statement over the staging directory is abstracted
as a caller-supplied function `ing` from the staged file set to either an
ingested record count or an engine error.  Python exceptions are `Except`
errors; Python values that can have the wrong runtime type are `PyVal`.

String primitives (`split("/")[-1]`, `.lower()`, `str.replace`, `int(...)`,
`datetime.date.fromisoformat`, and the regex search of `__extract_date`) are
implemented here by structural recursion on the character list, mirroring
their Python semantics on the ASCII inputs this program manipulates.
-/

set_option linter.unusedVariables false

/-- Python exception values raised by the embedded code paths. -/
inductive PyErr where
  | assertionError (msg : String)
  | valueError (msg : String)
  | typeError (msg : String)
deriving DecidableEq, Repr

deriving instance DecidableEq for Except

/-- A `datetime.date` value: year, month, day. -/
structure PyDate where
  year : Nat
  month : Nat
  day : Nat
deriving DecidableEq, Repr

/-- Python `<=` on `datetime.date`: lexicographic on (year, month, day). -/
def dle (a b : PyDate) : Bool :=
  decide (a.year < b.year) ||
    (decide (a.year = b.year) &&
      (decide (a.month < b.month) ||
        (decide (a.month = b.month) && decide (a.day ≤ b.day))))

/-- Python `<` on `datetime.date`: strict lexicographic on (year, month, day). -/
def dlt (a b : PyDate) : Bool :=
  decide (a.year < b.year) ||
    (decide (a.year = b.year) &&
      (decide (a.month < b.month) ||
        (decide (a.month = b.month) && decide (a.day < b.day))))

/-- A dynamically typed Python value, as far as load_table's arguments need. -/
inductive PyVal where
  | pyNone
  | pyStr (s : String)
  | pyInt (n : Int)
  | pyList (xs : List PyVal)
  | pyDate (d : PyDate)
  | pyObj (typeName : String)

/-- Rendering of `type(x)` for the embedded values, as in the f-string messages. -/
def pyTypeName : PyVal → String
  | PyVal.pyNone => "<class \x27NoneType\x27>"
  | PyVal.pyStr _ => "<class \x27str\x27>"
  | PyVal.pyInt _ => "<class \x27int\x27>"
  | PyVal.pyList _ => "<class \x27list\x27>"
  | PyVal.pyDate _ => "<class \x27datetime.date\x27>"
  | PyVal.pyObj t => "<class \x27" ++ t ++ "\x27>"

def isPyNone : PyVal → Bool
  | PyVal.pyNone => true
  | _ => false

def isPyStr : PyVal → Bool
  | PyVal.pyStr _ => true
  | _ => false

def isPyInt : PyVal → Bool
  | PyVal.pyInt _ => true
  | _ => false

def isPyList : PyVal → Bool
  | PyVal.pyList _ => true
  | _ => false

/-- Boolean prefix test on character lists. -/
def isPrefixB : List Char → List Char → Bool
  | [], _ => true
  | _ :: _, [] => false
  | a :: as, b :: bs => (a == b) && isPrefixB as bs

/-- Strip a literal prefix, returning the remainder on success. -/
def stripPre : List Char → List Char → Option (List Char)
  | [], l => some l
  | _ :: _, [] => none
  | p :: ps, c :: cs => if c = p then stripPre ps cs else none

/-- Boolean substring test (needle, haystack) on character lists. -/
def containsSub (n : List Char) : List Char → Bool
  | [] => isPrefixB n []
  | c :: t => isPrefixB n (c :: t) || containsSub n t

/-- Python `needle in haystack` on strings. -/
def strContains (hay needle : String) : Bool :=
  containsSub needle.data hay.data

/-- Python `s.split("/")[-1]`: the segment after the last slash. -/
def lastPathSegment (l : List Char) : List Char :=
  (l.reverse.takeWhile (fun c => !(c == '/'))).reverse

/-- ASCII case-insensitive equality of one character against a lowercase one. -/
def lowEq (c d : Char) : Bool :=
  (c == d) ||
    (decide (65 ≤ c.toNat) && decide (c.toNat ≤ 90) && decide (c.toNat + 32 = d.toNat))

/-- ASCII case-insensitive equality of a character list against a lowercase one. -/
def lowerEqList : List Char → List Char → Bool
  | [], [] => true
  | c :: cs, d :: ds => lowEq c d && lowerEqList cs ds
  | _, _ => true && false

/-- `obj["Key"].split("/")[-1].lower() == "manifest"` (main.py lines 92 and 121). -/
def isManifestKey (k : String) : Bool :=
  lowerEqList (lastPathSegment k.data) "manifest".data

/-- Numeric value of a decimal digit character. -/
def dval (c : Char) : Nat := c.toNat - 48

/-- Leap-year rule used by `datetime.date`. -/
def isLeap (y : Nat) : Bool :=
  (decide (y % 4 = 0) && !(decide (y % 100 = 0))) || decide (y % 400 = 0)

/-- Days in a month of a given year, as validated by `datetime.date`. -/
def daysInMonth (y m : Nat) : Nat :=
  if m = 2 then (if isLeap y then 29 else 28)
  else if m = 4 ∨ m = 6 ∨ m = 9 ∨ m = 11 then 30
  else 31

/-- Python `datetime.date.fromisoformat` applied to a string: accepts exactly
`YYYY-MM-DD` with a valid calendar date, raising `ValueError` otherwise
(main.py parses only such strings; the 3.11 extended forms never arise from
the digits-and-dashes strings this program produces). -/
def parseIso (s : String) : Except PyErr PyDate :=
  match s.data with
  | [y1, y2, y3, y4, s1, m1, m2, s2, d1, d2] =>
    if (y1.isDigit && y2.isDigit && y3.isDigit && y4.isDigit && (s1 == '-') &&
        m1.isDigit && m2.isDigit && (s2 == '-') && d1.isDigit && d2.isDigit) then
      if (decide (1 ≤ dval y1 * 1000 + dval y2 * 100 + dval y3 * 10 + dval y4) &&
          decide (1 ≤ dval m1 * 10 + dval m2) &&
          decide (dval m1 * 10 + dval m2 ≤ 12) &&
          decide (1 ≤ dval d1 * 10 + dval d2) &&
          decide (dval d1 * 10 + dval d2 ≤
            daysInMonth (dval y1 * 1000 + dval y2 * 100 + dval y3 * 10 + dval y4)
              (dval m1 * 10 + dval m2))) then
        Except.ok
          ⟨dval y1 * 1000 + dval y2 * 100 + dval y3 * 10 + dval y4,
           dval m1 * 10 + dval m2, dval d1 * 10 + dval d2⟩
      else Except.error (PyErr.valueError ("Invalid isoformat string: \x27" ++ s ++ "\x27"))
    else Except.error (PyErr.valueError ("Invalid isoformat string: \x27" ++ s ++ "\x27"))
  | _ => Except.error (PyErr.valueError ("Invalid isoformat string: \x27" ++ s ++ "\x27"))

/-- Whether an `Except` computation succeeded. -/
def exceptOk {ε α : Type} : Except ε α → Bool
  | Except.ok _ => true
  | Except.error _ => false

/-- `__check_date_fmt` (main.py lines 99-104): true iff `fromisoformat` succeeds. -/
def check_date_fmt (txt : String) : Bool :=
  exceptOk (parseIso txt)

/-- `datetime.date.fromisoformat` applied to an arbitrary Python value: a
non-string argument raises `TypeError` (this is what happens to the
`datetime.date.today()` default of `end_date`). -/
def fromisoformatV : PyVal → Except PyErr PyDate
  | PyVal.pyStr s => parseIso s
  | _ => Except.error (PyErr.typeError "fromisoformat: argument must be str")

/-- One attempt of the regex `(updated_date=([0-9]+-[0-9]+-[0-9]+))` anchored at
the head of `l`: the literal, then three greedy nonempty digit runs separated
by dashes.  Returns group 2 (the date part) on success.  Greedy maximal digit
runs are exact here because a digit can never satisfy the following `-`. -/
def reMatchAt (l : List Char) : Option (List Char) :=
  match stripPre "updated_date=".data l with
  | none => none
  | some r =>
    let d1 := r.takeWhile Char.isDigit
    let r1 := r.dropWhile Char.isDigit
    if d1.isEmpty then none else
    match r1 with
    | '-' :: r2 =>
      let d2 := r2.takeWhile Char.isDigit
      let r3 := r2.dropWhile Char.isDigit
      if d2.isEmpty then none else
      match r3 with
      | '-' :: r4 =>
        let d3 := r4.takeWhile Char.isDigit
        if d3.isEmpty then none
        else some (d1 ++ '-' :: (d2 ++ '-' :: d3))
      | _ => none
    | _ => none

/-- `re.search`: try the pattern at each position, leftmost first. -/
def reSearch : List Char → Option (List Char)
  | [] => reMatchAt []
  | c :: t =>
    match reMatchAt (c :: t) with
    | some r => some r
    | none => reSearch t

/-- `__extract_date` (main.py lines 106-110): the matched date part, or `""`. -/
def extract_date (txt : String) : String :=
  match reSearch txt.data with
  | some cs => ⟨cs⟩
  | none => ""

/-- Alternative index-based description of the same regex search: the match at
the smallest starting index, if any position matches. -/
def reSearchSpec (l : List Char) : Option (List Char) :=
  (List.range (l.length + 1)).findSome? (fun i => reMatchAt (l.drop i))

/-- Shape test for the strict spec pattern `YYYY-MM-DD` (exactly 4-2-2 digits). -/
def isoDateShape : List Char → Bool
  | [a, b, c, d, s1, e, f, s2, g, h] =>
    a.isDigit && b.isDigit && c.isDigit && d.isDigit && (s1 == '-') &&
      e.isDigit && f.isDigit && (s2 == '-') && g.isDigit && h.isDigit
  | _ => false

/-- Whether the strict spec pattern `updated_date=YYYY-MM-DD` occurs at the
head of the character list. -/
def isoPatAt (l : List Char) : Bool :=
  match stripPre "updated_date=".data l with
  | some r => isoDateShape (r.take 10)
  | none => false

def containsIsoPatternL : List Char → Bool
  | [] => isoPatAt []
  | c :: t => isoPatAt (c :: t) || containsIsoPatternL t

/-- Whether the string contains `updated_date=` immediately followed by a
4-2-2-digit `YYYY-MM-DD` block — the pattern as written in the spec. -/
def containsIsoPattern (s : String) : Bool :=
  containsIsoPatternL s.data

/-- `__get_start_date` (main.py lines 83-97): walk the listing in order, skip
manifest keys, and return the first extracted nonempty date that parses and is
strictly before today; fall through to `None` (here `Option.none`) otherwise.
A nonempty extracted date that is not a valid ISO date propagates the
`fromisoformat` ValueError. -/
def get_start_date (today : PyDate) : List String → Except PyErr (Option String)
  | [] => Except.ok none
  | k :: ks =>
    if isManifestKey k then get_start_date today ks
    else
      if extract_date k = "" then get_start_date today ks
      else
        match parseIso (extract_date k) with
        | Except.error e => Except.error e
        | Except.ok d =>
          if dlt d today then Except.ok (some (extract_date k))
          else get_start_date today ks

/-- The listing loop of `__get_files` (main.py lines 119-127): skip manifest
keys; for the rest, parse the extracted date with `fromisoformat` (raising on
failure — there is no empty-date guard here) and keep the key when the date is
within `[sd, ed]`, both bounds inclusive. -/
def getFilesAux (sd ed : PyDate) : List String → Except PyErr (List String)
  | [] => Except.ok []
  | k :: ks =>
    if isManifestKey k then getFilesAux sd ed ks
    else
      match parseIso (extract_date k) with
      | Except.error e => Except.error e
      | Except.ok d =>
        match getFilesAux sd ed ks with
        | Except.error e => Except.error e
        | Except.ok rest =>
          Except.ok (if dle sd d && dle d ed then k :: rest else rest)

/-- `__get_files` (main.py lines 112-127): parse `start_date` then `end_date`
(each may raise), then filter the listing. -/
def get_files (listing : List String) (sdv edv : PyVal) : Except PyErr (List String) :=
  match fromisoformatV sdv with
  | Except.error e => Except.error e
  | Except.ok sd =>
    match fromisoformatV edv with
    | Except.error e => Except.error e
    | Except.ok ed => getFilesAux sd ed listing

/-- The membership predicate realised by the `__get_files` loop for a key:
not a manifest and carrying a date within the inclusive window. -/
def inRangeKey (sd ed : PyDate) (k : String) : Bool :=
  !(isManifestKey k) &&
    (match parseIso (extract_date k) with
     | Except.ok d => dle sd d && dle d ed
     | Except.error _ => false)

/-- Modelled from the spec (amended for C5): the candidate a key contributes to
`earliestDate` — its extracted date when the key is not a manifest, the date is
nonempty, parses, and is strictly before today. -/
def candDate (today : PyDate) (k : String) : Option String :=
  if isManifestKey k then none
  else
    if extract_date k = "" then none
    else
      match parseIso (extract_date k) with
      | Except.ok d => if dlt d today then some (extract_date k) else none
      | Except.error _ => none

/-- String replacement with empty replacement text, by fuel (the fuel is the
input length, which suffices for a nonempty pattern); mirrors Python
`s.replace(pat, "")`. -/
def repFuel (ps : List Char) : Nat → List Char → List Char
  | _, [] => []
  | 0, l => l
  | fuel + 1, c :: cs =>
    match stripPre ps (c :: cs) with
    | some rest => repFuel ps fuel rest
    | none => c :: repFuel ps fuel cs

/-- Python `s.replace(pat, "")` for a nonempty `pat`. -/
def replaceAll (pat : List Char) (l : List Char) : List Char :=
  repFuel pat l.length l

/-- Decimal digits to a number, `none` when empty or not all digits. -/
def digitsToNat (l : List Char) : Option Nat :=
  if l.isEmpty then none
  else if l.all Char.isDigit then
    some (l.foldl (fun a c => a * 10 + dval c) 0)
  else none

/-- Python `int(s)` on the strings this program produces: optional minus sign
followed by decimal digits, ValueError otherwise. -/
def toIntPy (l : List Char) : Except PyErr Int :=
  match l with
  | '-' :: rest =>
    match digitsToNat rest with
    | some n => Except.ok (-(n : Int))
    | none => Except.error (PyErr.valueError
        ("invalid literal for int() with base 10: \x27" ++ (⟨l⟩ : String) ++ "\x27"))
  | _ =>
    match digitsToNat l with
    | some n => Except.ok (n : Int)
    | none => Except.error (PyErr.valueError
        ("invalid literal for int() with base 10: \x27" ++ (⟨l⟩ : String) ++ "\x27"))

/-- `int(f.split("/")[-1].replace("part_", "").replace(".gz", ""))`
(main.py line 161). -/
def partNumOf (f : String) : Except PyErr Int :=
  toIntPy (replaceAll ".gz".data (replaceAll "part_".data (lastPathSegment f.data)))

/-- Membership of an int in a Python list of values (`n in parts`). -/
def pyIntMem (n : Int) : List PyVal → Bool
  | [] => false
  | PyVal.pyInt m :: xs => (m == n) || pyIntMem n xs
  | _ :: xs => pyIntMem n xs

/-- The list comprehension of `__download_files` (main.py lines 157-163):
keep the files whose part index is in `parts`; `int()` failures propagate. -/
def partsFilterGo (xs : List PyVal) : List String → Except PyErr (List String)
  | [] => Except.ok []
  | f :: fs =>
    match partNumOf f with
    | Except.error e => Except.error e
    | Except.ok n =>
      match partsFilterGo xs fs with
      | Except.error e => Except.error e
      | Except.ok rest => Except.ok (if pyIntMem n xs then f :: rest else rest)

/-- `if parts != "*": files = [...]` (main.py lines 157-163).  After the
resolution at line 253 `parts` is either the string `"*"` (filter skipped) or
the validated list of ints. -/
def partsFilter (pv : PyVal) (files : List String) : Except PyErr (List String) :=
  match pv with
  | PyVal.pyStr _ => Except.ok files
  | PyVal.pyList xs => partsFilterGo xs files
  | _ => Except.error (PyErr.typeError "argument is not iterable")

/-- The head/submit loop of `__download_files` (main.py lines 165-183): for
each file, try the `head_object` size lookup; on failure log an error and skip
the file (it never enters the pool); on success submit the download.  Returns
the staged files (pool files whose download succeeded) and the logged error
lines, in file order.  The surrounding `try`/`except` makes this loop total:
no exception escapes it. -/
def downloadPool (meta : String → Option Nat) (dl : String → Bool) :
    List String → List String × List String
  | [] => ([], [])
  | f :: fs =>
    let rest := downloadPool meta dl fs
    match meta f with
    | some _ => (if dl f then f :: rest.1 else rest.1, rest.2)
    | none => (rest.1, (" ERROR getting size for " ++ f) :: rest.2)

/-- The external collaborators of one `load_table` call: the S3
listing (all pages, in listing order), the `head_object` metadata lookup
(`none` models a raised exception), per-key download success, and today's
date at call time. -/
structure Env where
  listing : List String
  meta : String → Option Nat
  dlOk : String → Bool
  today : PyDate

/-- One DuckDB table: its name, whether it is a temporary (session-scoped)
table, and its current row count. -/
structure TableInfo where
  name : String
  temporary : Bool
  rows : Nat
deriving DecidableEq, Repr

/-- The tables of the active DuckDB connection, in creation order. -/
abbrev DBState := List TableInfo

/-- `SELECT count(*) FROM duckdb_tables() WHERE table_name='{obj_type}' > 0`
(main.py lines 275-280). -/
def table_exists (db : DBState) (n : String) : Bool :=
  decide (0 < (db.filter (fun t => t.name == n)).length)

/-- `INSERT INTO {obj_type} ...`: add the ingested rows to the named table. -/
def insert_into : DBState → String → Nat → DBState
  | [], _, _ => []
  | t :: ts, n, r =>
    if t.name == n then ⟨t.name, t.temporary, t.rows + r⟩ :: ts
    else t :: insert_into ts n r

/-- The create-or-append branch of `load_table` (main.py lines 275-296): if a
table named `obj` exists, append the `n` ingested records into it; otherwise
create it — durable when a persistence path is configured, temporary
otherwise — with those records. -/
def tableStep (persist : Option String) (obj : String) (db : DBState) (n : Nat) : DBState :=
  if table_exists db obj then insert_into db obj n
  else db ++ [⟨obj, persist.isNone, n⟩]

/-- The network and engine actions `load_table` can perform, in order. -/
inductive Ev where
  | listObjects
  | headObject (k : String)
  | getObject (k : String)
  | tableQuery
  | execLoad
  | rmtree
deriving DecidableEq, Repr

/-- The arguments of one `load_table` call, in signature order; `pyNone`
stands for an omitted optional argument. -/
structure LoadArgs where
  obj_type : PyVal
  cols : PyVal
  limit : PyVal
  start_date : PyVal
  end_date : PyVal
  parts : PyVal

/-- `accepted_types` (main.py lines 199-209). -/
def accepted_types : List String :=
  ["works", "authors", "sources", "institutions", "topics", "keywords",
   "publishers", "funders", "geo"]

/-- Python `"/".join(l)`. -/
def joinSlash : List String → String
  | [] => ""
  | [s] => s
  | s :: rest => s ++ "/" ++ joinSlash rest

/-- `check_date_fmt` lifted to a possibly-absent argument (the guards at
main.py lines 224 and 227 only run the check when the value is given; at that
point the earlier type check guarantees it is a string). -/
def fmtOkV : PyVal → Bool
  | PyVal.pyStr s => check_date_fmt s
  | _ => true

def partsAllInt : PyVal → Bool
  | PyVal.pyList xs => xs.all isPyInt
  | _ => true

def colsAllStr : PyVal → Bool
  | PyVal.pyList xs => xs.all isPyStr
  | _ => true

/-- The validation prefix of `load_table` (main.py lines 195-249), with the
checks and messages in source order.  Note the message of the malformed
`start_date` check (line 225) names `end_date`. -/
def validateLoad (a : LoadArgs) : Except PyErr Unit :=
  match a.obj_type with
  | PyVal.pyStr s =>
    if s ∈ accepted_types then
      if !isPyNone a.start_date && !isPyStr a.start_date then
        Except.error (PyErr.valueError
          ("Expected start_date to be of type \x27str\x27. Found type " ++
            pyTypeName a.start_date))
      else if !isPyNone a.end_date && !isPyStr a.end_date then
        Except.error (PyErr.valueError
          ("Expected end_date to be of type \x27str\x27. Found type " ++
            pyTypeName a.end_date))
      else if !isPyNone a.start_date && !fmtOkV a.start_date then
        Except.error (PyErr.valueError "Expected end_date of the format \x27YYYY-mm-dd\x27")
      else if !isPyNone a.end_date && !fmtOkV a.end_date then
        Except.error (PyErr.valueError "Expected end_date of the format \x27YYYY-mm-dd\x27")
      else if !isPyNone a.parts && !isPyList a.parts then
        Except.error (PyErr.valueError
          ("Expected parts to be of type \x27list\x27. Found " ++ pyTypeName a.parts))
      else if !isPyNone a.parts && !partsAllInt a.parts then
        Except.error (PyErr.valueError "Expected parts to be a list of integers.")
      else if !isPyNone a.cols && !isPyList a.cols then
        Except.error (PyErr.valueError
          ("Expected cols to be of type \x27list\x27. Found type " ++ pyTypeName a.cols))
      else if !isPyNone a.cols && !colsAllStr a.cols then
        Except.error (PyErr.valueError "Expected cols to be of type \x27list<str>\x27")
      else if !isPyNone a.limit && !isPyInt a.limit then
        Except.error (PyErr.valueError
          ("Expected limit to be of type \x27int\x27. Found type " ++ pyTypeName a.limit))
      else Except.ok ()
    else
      Except.error (PyErr.assertionError
        ("Expected obj_type to either " ++ joinSlash accepted_types ++ ". Found " ++ s))
  | v =>
    Except.error (PyErr.assertionError
      ("Expected obj_type to be str. Found " ++ pyTypeName v))

/-- `parts = "*" if parts is None else parts` (main.py line 253). -/
def partsResolved (a : LoadArgs) : PyVal :=
  if isPyNone a.parts then PyVal.pyStr "*" else a.parts

/-- `end_date = datetime.date.today() if end_date is None else end_date`
(main.py line 255): the default is a `datetime.date` object, not a string. -/
def endResolved (today : PyDate) (a : LoadArgs) : PyVal :=
  if isPyNone a.end_date then PyVal.pyDate today else a.end_date

/-- `cols = "*" if cols is None else cols` (main.py line 256). -/
def colsResolved (a : LoadArgs) : PyVal :=
  if isPyNone a.cols then PyVal.pyStr "*" else a.cols

/-- Rendering of a Python value inside an f-string, as far as needed here. -/
def pyToString : PyVal → String
  | PyVal.pyInt n => toString n
  | PyVal.pyStr s => s
  | _ => ""

/-- `limit = f" LIMIT {limit}" if limit is not None else ""` (main.py line 257). -/
def limitResolved (a : LoadArgs) : String :=
  if isPyNone a.limit then "" else " LIMIT " ++ pyToString a.limit

def optPy : Option String → PyVal
  | some s => PyVal.pyStr s
  | none => PyVal.pyNone

/-- `__download_files` (main.py lines 145-183): resolve the date window by
parsing `start_date` then `end_date`, list and filter the remote objects,
apply the part filter, then head/submit each file.  Returns the performed
network events and either a raised error or the staged files. -/
def download_files (env : Env) (sdv edv partsv : PyVal) :
    List Ev × Except PyErr (List String) :=
  match fromisoformatV sdv with
  | Except.error e => ([], Except.error e)
  | Except.ok sd =>
    match fromisoformatV edv with
    | Except.error e => ([], Except.error e)
    | Except.ok ed =>
      match getFilesAux sd ed env.listing with
      | Except.error e => ([Ev.listObjects], Except.error e)
      | Except.ok files =>
        match partsFilter partsv files with
        | Except.error e => ([Ev.listObjects], Except.error e)
        | Except.ok files2 =>
          match downloadPool env.meta env.dlOk files2 with
          | (staged, _errs) =>
            (Ev.listObjects :: (files2.map Ev.headObject ++
              (files2.filter (fun f => (env.meta f).isSome)).map Ev.getObject),
             Except.ok staged)

/-- `load_table` up to the table statement (main.py lines 195-267): validate,
resolve defaults (listing the remote store when `start_date` is omitted), and
download into staging.  Returns the network events and either a raised error
or the staged files. -/
def prepFiles (env : Env) (a : LoadArgs) : List Ev × Except PyErr (List String) :=
  match validateLoad a with
  | Except.error e => ([], Except.error e)
  | Except.ok _ =>
    match
      (if isPyNone a.start_date then
        ([Ev.listObjects], (get_start_date env.today env.listing).map optPy)
      else ([], Except.ok a.start_date)) with
    | (evs, Except.error e) => (evs, Except.error e)
    | (evs, Except.ok sdv) =>
      match download_files env sdv (endResolved env.today a) (partsResolved a) with
      | (evs2, res) => (evs ++ evs2, res)

/-- The observable outcome of one `load_table` call: the network and engine
actions performed (in order), the raised error or resulting table state, and
whether the staging directory was deleted. -/
structure Outcome where
  events : List Ev
  result : Except PyErr DBState
  stagingRemoved : Bool

/-- `load_table` (main.py lines 185-300).  `ing` abstracts the engine's
evaluation of the `SELECT ... FROM read_ndjson_auto('{download_dir}/*', ...)`
statement over the staged files: the number of ingested records, or an engine
error.  After a successful execute the staging directory is removed
(`shutil.rmtree`, line 298); on any raised error it is left in place. -/
def load_table (persist : Option String) (env : Env) (db : DBState)
    (a : LoadArgs) (ing : List String → Except PyErr Nat) : Outcome :=
  match prepFiles env a with
  | (evs, Except.error e) => ⟨evs, Except.error e, false⟩
  | (evs, Except.ok staged) =>
    match ing staged with
    | Except.error e =>
      ⟨evs ++ [Ev.tableQuery, Ev.execLoad], Except.error e, false⟩
    | Except.ok n =>
      ⟨evs ++ [Ev.tableQuery, Ev.execLoad, Ev.rmtree],
       Except.ok (tableStep persist (pyToString a.obj_type) db n), true⟩

/-- A remote key dated 2025-08-04 (the start bound of the witness window). -/
def keyA : String := "data/works/updated_date=2025-08-04/part_000.gz"

/-- A remote key dated 2025-08-05 (the end bound of the witness window). -/
def keyB : String := "data/works/updated_date=2025-08-05/part_001.gz"

/-- A remote key dated 2025-08-06 (outside the witness window). -/
def keyC : String := "data/works/updated_date=2025-08-06/part_002.gz"

/-- The manifest marker of the works prefix. -/
def keyM : String := "data/works/manifest"

/-- A witness environment: a listing with a manifest and three dated keys, all
metadata lookups and downloads succeeding, today = 2025-09-01. -/
def wEnv : Env :=
  ⟨[keyM, keyA, keyB, keyC], fun _ => some 10, fun _ => true, ⟨2025, 9, 1⟩⟩

/-- A witness call: `load_table(obj_type="works", start_date="2025-08-04",
end_date="2025-08-05")`, everything else omitted. -/
def wArgs : LoadArgs :=
  ⟨PyVal.pyStr "works", PyVal.pyNone, PyVal.pyNone,
   PyVal.pyStr "2025-08-04", PyVal.pyStr "2025-08-05", PyVal.pyNone⟩

/-- The events `prepFiles wEnv wArgs` performs. -/
def wEvs : List Ev :=
  [Ev.listObjects, Ev.headObject keyA, Ev.headObject keyB,
   Ev.getObject keyA, Ev.getObject keyB]

/-- An ingest behavior that succeeds with one record per staged file. -/
def ingPerFile : List String → Except PyErr Nat :=
  fun staged => Except.ok staged.length

/-- An ingest behavior that fails (e.g. a schema mismatch in a staged file). -/
def ingFail : List String → Except PyErr Nat :=
  fun _ => Except.error (PyErr.valueError "Malformed JSON in file part_000.gz")

/-- An ingest behavior for an empty staging glob: DuckDB raises an IO error
when `read_ndjson_auto` finds no files. -/
def ingNoFiles : List String → Except PyErr Nat :=
  fun staged =>
    if staged.isEmpty then
      Except.error (PyErr.valueError "No files found that match the pattern")
    else Except.ok staged.length

/-- A witness call whose window `2025-01-01 .. 2025-01-02` selects no files. -/
def wArgsEmpty : LoadArgs :=
  ⟨PyVal.pyStr "works", PyVal.pyNone, PyVal.pyNone,
   PyVal.pyStr "2025-01-01", PyVal.pyStr "2025-01-02", PyVal.pyNone⟩

/-- `load(obj_type="bogus")`. -/
def bogusArgs : LoadArgs :=
  ⟨PyVal.pyStr "bogus", PyVal.pyNone, PyVal.pyNone,
   PyVal.pyNone, PyVal.pyNone, PyVal.pyNone⟩

/-- `load(obj_type="works", start_date="08-04-2025")`. -/
def badStartArgs : LoadArgs :=
  ⟨PyVal.pyStr "works", PyVal.pyNone, PyVal.pyNone,
   PyVal.pyStr "08-04-2025", PyVal.pyNone, PyVal.pyNone⟩

/-- `load_table(obj_type="works", start_date="2025-08-04")` with `end_date`
omitted — the failing input of C9. -/
def wArgsDefaultEnd : LoadArgs :=
  ⟨PyVal.pyStr "works", PyVal.pyNone, PyVal.pyNone,
   PyVal.pyStr "2025-08-04", PyVal.pyNone, PyVal.pyNone⟩

/-- A non-manifest key carrying no `updated_date=` pattern at all — the
failing input of C2. -/
def keyNoDate : String := "data/works/notes.txt"

/-- A key dated 2025-06-01, listed before an earlier-dated key. -/
def keyJun : String := "data/works/updated_date=2025-06-01/part_000.gz"

/-- A key dated 2025-05-01, listed after `keyJun`. -/
def keyMay : String := "data/works/updated_date=2025-05-01/part_000.gz"

/-! ### Helper lemmas -/

theorem getFilesAux_eq_filter (sd ed : PyDate) (l : List String)
    (h : ∀ k ∈ l, isManifestKey k = false →
      exceptOk (parseIso (extract_date k)) = true) :
    getFilesAux sd ed l = Except.ok (l.filter (inRangeKey sd ed)) := by
  induction l with
  | nil => rfl
  | cons k t ih =>
    have ht : ∀ x ∈ t, isManifestKey x = false →
        exceptOk (parseIso (extract_date x)) = true :=
      fun x hx => h x (List.mem_cons_of_mem k hx)
    have ih' := ih ht
    cases hm : isManifestKey k with
    | true =>
      simp [getFilesAux, hm, List.filter_cons, inRangeKey, ih']
    | false =>
      have hk := h k (List.mem_cons_self k t) hm
      cases hp : parseIso (extract_date k) with
      | error e => rw [hp] at hk; simp [exceptOk] at hk
      | ok d =>
        cases hc : dle sd d && dle d ed with
        | true =>
          simp [getFilesAux, hm, hp, hc, List.filter_cons, inRangeKey, ih']
        | false =>
          simp [getFilesAux, hm, hp, hc, List.filter_cons, inRangeKey, ih']

theorem findSomeQ_map {α β γ : Type} (g : α → β) (f : β → Option γ) (l : List α) :
    (l.map g).findSome? f = l.findSome? (fun a => f (g a)) := by
  induction l with
  | nil => rfl
  | cons a t ih =>
    simp only [List.map_cons, List.findSome?]
    cases f (g a) <;> simp [ih]

theorem reSearchSpec_cons (c : Char) (t : List Char) :
    reSearchSpec (c :: t) =
      (match reMatchAt (c :: t) with
       | some r => some r
       | none => reSearchSpec t) := by
  unfold reSearchSpec
  have hr : List.range ((c :: t).length + 1) =
      0 :: (List.range (t.length + 1)).map Nat.succ := by
    rw [List.length_cons]
    exact List.range_succ_eq_map (t.length + 1)
  rw [hr]
  simp only [List.findSome?, List.drop_zero]
  cases reMatchAt (c :: t) with
  | some r => rfl
  | none =>
    simp only [findSomeQ_map]
    rfl

theorem reSearch_eq_spec (l : List Char) : reSearch l = reSearchSpec l := by
  induction l with
  | nil => rfl
  | cons c t ih =>
    rw [reSearchSpec_cons]
    simp only [reSearch]
    cases reMatchAt (c :: t) <;> simp [ih]

theorem table_exists_append (db : DBState) (obj : String) (b : Bool) (r : Nat) :
    table_exists (db ++ [⟨obj, b, r⟩]) obj = true := by
  have hx : (List.filter (fun t => t.name == obj) [(⟨obj, b, r⟩ : TableInfo)]) =
      [⟨obj, b, r⟩] := by simp
  simp [table_exists, List.filter_append, hx]

theorem table_exists_cons (t : TableInfo) (ts : DBState) (obj : String) :
    table_exists (t :: ts) obj = ((t.name == obj) || table_exists ts obj) := by
  cases hn : t.name == obj <;> simp [table_exists, List.filter_cons, hn]

theorem insert_into_append (db : DBState) (obj : String) (b : Bool) (r n : Nat)
    (h : table_exists db obj = false) :
    insert_into (db ++ [⟨obj, b, r⟩]) obj n = db ++ [⟨obj, b, r + n⟩] := by
  induction db with
  | nil => simp [insert_into]
  | cons t ts ih =>
    rw [table_exists_cons] at h
    have hn : (t.name == obj) = false := by
      cases hq : t.name == obj
      · rfl
      · rw [hq] at h; simp at h
    have hts : table_exists ts obj = false := by
      cases hq : table_exists ts obj
      · rfl
      · rw [hq] at h; simp at h
    simp [insert_into, hn, ih hts]

theorem foldl_tableStep_append (persist : Option String) (obj : String) (b : Bool)
    (ns : List Nat) :
    ∀ (db : DBState) (r : Nat), table_exists db obj = false →
      List.foldl (tableStep persist obj) (db ++ [⟨obj, b, r⟩]) ns =
        db ++ [⟨obj, b, r + ns.sum⟩] := by
  induction ns with
  | nil => intro db r h; simp
  | cons m ms ih =>
    intro db r h
    simp only [List.foldl_cons]
    have h1 : tableStep persist obj (db ++ [⟨obj, b, r⟩]) m = db ++ [⟨obj, b, r + m⟩] := by
      simp [tableStep, table_exists_append, insert_into_append db obj b r m h]
    rw [h1, ih db (r + m) h]
    simp [List.sum_cons, Nat.add_assoc]

theorem downloadPool_fst (meta : String → Option Nat) (dl : String → Bool)
    (files : List String)
    (hdl : ∀ f ∈ files, (meta f).isSome = true → dl f = true) :
    (downloadPool meta dl files).1 = files.filter (fun f => (meta f).isSome) := by
  induction files with
  | nil => rfl
  | cons f fs ih =>
    have hfs : ∀ x ∈ fs, (meta x).isSome = true → dl x = true :=
      fun x hx => hdl x (List.mem_cons_of_mem f hx)
    cases hm : meta f with
    | none => simp [downloadPool, hm, List.filter_cons, ih hfs]
    | some sz =>
      have hd : dl f = true := hdl f (List.mem_cons_self f fs) (by simp [hm])
      simp [downloadPool, hm, hd, List.filter_cons, ih hfs]

theorem downloadPool_snd (meta : String → Option Nat) (dl : String → Bool)
    (files : List String) :
    (downloadPool meta dl files).2 =
      (files.filter (fun f => (meta f).isNone)).map
        (fun f => " ERROR getting size for " ++ f) := by
  induction files with
  | nil => rfl
  | cons f fs ih =>
    cases hm : meta f with
    | none => simp [downloadPool, hm, List.filter_cons, ih]
    | some sz => simp [downloadPool, hm, List.filter_cons, ih]

/-- Any `load_table` argument list rejected by validation produces no network
or engine event at all: the error is raised before any I/O. -/
theorem validateLoad_fail_fast (persist : Option String) (env : Env) (db : DBState)
    (a : LoadArgs) (ing : List String → Except PyErr Nat) (e : PyErr)
    (h : validateLoad a = Except.error e) :
    load_table persist env db a ing = ⟨[], Except.error e, false⟩ := by
  unfold load_table prepFiles
  rw [h]

/-! ### Claim theorems -/

/-- C1: for every listing whose non-manifest keys all carry a parseable
extracted date (the `RemoteObjectKey` invariant of the data model), and every
parsed pair `startDate <= endDate`, `__get_files` returns exactly the subset
of listed non-manifest keys whose extracted date `d` satisfies
`startDate <= d <= endDate`, both bounds inclusive. -/
theorem get_files_returns_inclusive_window
    (listing : List String) (sdv edv : PyVal) (sd ed : PyDate)
    (hs : fromisoformatV sdv = Except.ok sd)
    (he : fromisoformatV edv = Except.ok ed)
    (hrange : dle sd ed = true)
    (hkeys : ∀ k ∈ listing, isManifestKey k = false →
      exceptOk (parseIso (extract_date k)) = true) :
    get_files listing sdv edv = Except.ok (listing.filter (inRangeKey sd ed)) := by
  unfold get_files
  rw [hs, he]
  exact getFilesAux_eq_filter sd ed listing hkeys

/-- Witness for C1: in a listing with a manifest and keys dated 2025-08-04,
2025-08-05 and 2025-08-06, the window 2025-08-04..2025-08-05 selects exactly
the two boundary keys (both bounds inclusive), and excludes the manifest. -/
theorem get_files_returns_inclusive_window_witness :
    get_files [keyM, keyA, keyB, keyC]
      (PyVal.pyStr "2025-08-04") (PyVal.pyStr "2025-08-05") =
      Except.ok [keyA, keyB] :=
  get_files_returns_inclusive_window [keyM, keyA, keyB, keyC]
    (PyVal.pyStr "2025-08-04") (PyVal.pyStr "2025-08-05")
    ⟨2025, 8, 4⟩ ⟨2025, 8, 5⟩ rfl rfl rfl (by decide)

/-- C2 (code bug): a non-manifest key without an extractable date does not get
excluded — `__get_files` passes the empty extracted date straight to
`date.fromisoformat`, which raises `ValueError`, so the whole call fails
instead of completing normally. -/
theorem get_files_raises_on_undated_key :
    get_files [keyNoDate] (PyVal.pyStr "2025-08-04") (PyVal.pyStr "2025-08-05") =
      Except.error (PyErr.valueError "Invalid isoformat string: \x27\x27") := by
  decide

/-- C3: starting from a connection state with no table named `obj`, a nonempty
sequence of successful loads ingesting `ns` records folds to: exactly one new
table named `obj` — durable iff a persistence path is configured — whose row
count is the sum of the loads' ingested record counts, with every other table
untouched (never dropped or replaced). -/
theorem load_table_create_then_append
    (persist : Option String) (obj : String) (db : DBState) (ns : List Nat)
    (hnone : table_exists db obj = false) (hne : ns ≠ []) :
    List.foldl (tableStep persist obj) db ns =
      db ++ [⟨obj, persist.isNone, ns.sum⟩] := by
  cases ns with
  | nil => exact absurd rfl hne
  | cons m ms =>
    simp only [List.foldl_cons]
    have h1 : tableStep persist obj db m = db ++ [⟨obj, persist.isNone, m⟩] := by
      simp [tableStep, hnone]
    rw [h1, foldl_tableStep_append persist obj persist.isNone ms db m hnone]
    simp [List.sum_cons, Nat.add_assoc]

/-- Witness for C3: two successive loads of 3 then 4 records into a fresh
in-memory connection produce one temporary table `works` with 7 rows. -/
theorem load_table_create_then_append_witness :
    List.foldl (tableStep none "works") [] [3, 4] =
      [⟨"works", true, 7⟩] :=
  load_table_create_then_append none "works" [] [3, 4] rfl (by decide)

/-- C5 counterexample: with the listing `[keyJun, keyMay]` (2025-06-01 listed
before 2025-05-01) and today = 2025-08-01, `__get_start_date` returns
2025-06-01 even though the listing also holds the valid, strictly smaller
date 2025-05-01 (itself before today): the function does not return the
minimum. -/
theorem get_start_date_not_minimum :
    get_start_date ⟨2025, 8, 1⟩ [keyJun, keyMay] = Except.ok (some "2025-06-01") ∧
    extract_date keyMay = "2025-05-01" ∧
    isManifestKey keyMay = false ∧
    parseIso "2025-05-01" = Except.ok ⟨2025, 5, 1⟩ ∧
    dlt ⟨2025, 5, 1⟩ ⟨2025, 8, 1⟩ = true ∧
    dlt ⟨2025, 5, 1⟩ ⟨2025, 6, 1⟩ = true := by
  exact ⟨rfl, by decide, by decide, by decide, by decide, by decide⟩

/-- C5 (amended): `__get_start_date` skips manifest keys and keys with no
extractable date and returns the first — in listing order, not the minimum —
extracted date that parses and is strictly before today; when the listing is
empty or no key qualifies it returns an unset result rather than raising.
(Hypothesis: every nonempty extracted date parses, the data-model invariant;
a nonempty unparseable date would instead propagate a ValueError.) -/
theorem get_start_date_first_valid_before_today
    (today : PyDate) (listing : List String)
    (h : ∀ k ∈ listing, isManifestKey k = false → extract_date k ≠ "" →
      exceptOk (parseIso (extract_date k)) = true) :
    get_start_date today listing =
      Except.ok ((listing.filterMap (candDate today)).head?) := by
  induction listing with
  | nil => rfl
  | cons k t ih =>
    have ht : ∀ x ∈ t, isManifestKey x = false → extract_date x ≠ "" →
        exceptOk (parseIso (extract_date x)) = true :=
      fun x hx => h x (List.mem_cons_of_mem k hx)
    have ih' := ih ht
    cases hm : isManifestKey k with
    | true => simp [get_start_date, hm, List.filterMap_cons, candDate, ih']
    | false =>
      by_cases hd : extract_date k = ""
      · simp [get_start_date, hm, hd, List.filterMap_cons, candDate, ih']
      · have hk := h k (List.mem_cons_self k t) hm hd
        cases hp : parseIso (extract_date k) with
        | error e => rw [hp] at hk; simp [exceptOk] at hk
        | ok d =>
          cases hlt : dlt d today with
          | true =>
            simp [get_start_date, hm, hd, hp, hlt, List.filterMap_cons, candDate]
          | false =>
            simp [get_start_date, hm, hd, hp, hlt, List.filterMap_cons, candDate, ih']

/-- Witness for C5 (amended): a listing with a manifest and one key dated
2025-08-04, today = 2025-09-01, yields 2025-08-04. -/
theorem get_start_date_first_valid_before_today_witness :
    get_start_date ⟨2025, 9, 1⟩ [keyM, keyA] = Except.ok (some "2025-08-04") :=
  get_start_date_first_valid_before_today ⟨2025, 9, 1⟩ [keyM, keyA] (by decide)

/-- C8 counterexample: the regex `[0-9]+-[0-9]+-[0-9]+` is looser than the
spec pattern `YYYY-MM-DD` in both directions.  `"updated_date=1-2-3"` does not
contain the 4-2-2-digit pattern, yet `__extract_date` returns `"1-2-3"` (not
empty); `"updated_date=2025-08-041"` does contain it (as a substring), yet
`__extract_date` returns `"2025-08-041"`, not exactly that date substring. -/
theorem extract_date_pattern_mismatch :
    containsIsoPattern "updated_date=1-2-3" = false ∧
    extract_date "updated_date=1-2-3" = "1-2-3" ∧
    containsIsoPattern "updated_date=2025-08-041" = true ∧
    extract_date "updated_date=2025-08-041" = "2025-08-041" ∧
    strContains "updated_date=2025-08-041" "updated_date=2025-08-04" = true ∧
    ("2025-08-041" : String) ≠ "2025-08-04" := by
  exact ⟨by decide, by decide, by decide, by decide, by decide, by decide⟩

/-- C8 (amended): `__extract_date` is pure and total; it returns the date part
of the leftmost occurrence of `updated_date=` followed by three maximal
nonempty digit runs separated by dashes (the digit runs are not constrained
to widths 4-2-2), and the empty string when no position of the input matches.
`reSearchSpec` is the independent smallest-matching-index description of that
search. -/
theorem extract_date_leftmost_loose_match (s : String) :
    extract_date s =
      (match reSearchSpec s.data with
       | some cs => (⟨cs⟩ : String)
       | none => "") ∧
    reSearch s.data = reSearchSpec s.data := by
  refine ⟨?_, reSearch_eq_spec s.data⟩
  unfold extract_date
  rw [reSearch_eq_spec]

/-- `load_table()` with every optional argument omitted (and a valid
`obj_type`), for the C9 default-resolution facts. -/
def wArgsAllDefault : LoadArgs :=
  ⟨PyVal.pyStr "works", PyVal.pyNone, PyVal.pyNone,
   PyVal.pyNone, PyVal.pyNone, PyVal.pyNone⟩

/-- Metadata behavior for the C7 witness: the size lookup raises for `keyB`
and succeeds for every other key. -/
def w7meta : String → Option Nat :=
  fun f => if f == keyB then none else some 5

/-- C4 (code bug): validation failures are raised before any network or
engine action (`events = []`), and `load(obj_type="bogus")` and
`load(obj_type="works", start_date="08-04-2025")` both fail that way — but
the malformed-`start_date` message reads "Expected end_date of the format
\x27YYYY-mm-dd\x27": it names `end_date`, not the offending `start_date`
(main.py line 225, a copy-paste slip). -/
theorem load_table_validation_misnamed_message :
    validateLoad badStartArgs =
      Except.error (PyErr.valueError "Expected end_date of the format \x27YYYY-mm-dd\x27") ∧
    strContains "Expected end_date of the format \x27YYYY-mm-dd\x27" "start_date" = false ∧
    strContains "Expected end_date of the format \x27YYYY-mm-dd\x27" "end_date" = true ∧
    (load_table none wEnv [] badStartArgs ingPerFile).events = [] ∧
    exceptOk (load_table none wEnv [] badStartArgs ingPerFile).result = false ∧
    (load_table none wEnv [] bogusArgs ingPerFile).events = [] ∧
    validateLoad bogusArgs = Except.error (PyErr.assertionError
      ("Expected obj_type to either works/authors/sources/institutions/topics/keywords/publishers/funders/geo. Found bogus")) := by
  exact ⟨rfl, by decide, by decide, rfl, rfl, rfl, rfl⟩

/-- C6: given a call that reaches the table statement with staged files
`staged`, an ingest error propagates to the caller and leaves the staging
directory in place, a successful ingest removes it (and commits the
create-or-append step); and globally, the staging directory is removed only
on calls whose result is a success. -/
theorem load_table_cleanup_only_on_success
    (persist : Option String) (env : Env) (db : DBState) (a : LoadArgs)
    (ing : List String → Except PyErr Nat) (evs : List Ev) (staged : List String)
    (hprep : prepFiles env a = (evs, Except.ok staged)) :
    (∀ e, ing staged = Except.error e →
      (load_table persist env db a ing).result = Except.error e ∧
      (load_table persist env db a ing).stagingRemoved = false) ∧
    (∀ n, ing staged = Except.ok n →
      (load_table persist env db a ing).stagingRemoved = true ∧
      (load_table persist env db a ing).result =
        Except.ok (tableStep persist (pyToString a.obj_type) db n)) ∧
    (∀ (p2 : Option String) (env2 : Env) (db2 : DBState) (a2 : LoadArgs)
        (ing2 : List String → Except PyErr Nat),
      (load_table p2 env2 db2 a2 ing2).stagingRemoved = true →
        exceptOk (load_table p2 env2 db2 a2 ing2).result = true) := by
  refine ⟨?_, ?_, ?_⟩
  · intro e he
    unfold load_table
    rw [hprep]
    simp [he]
  · intro n hn
    unfold load_table
    rw [hprep]
    simp [hn]
  · intro p2 env2 db2 a2 ing2
    unfold load_table
    cases hp : prepFiles env2 a2 with
    | mk evs2 res =>
      cases res with
      | error e => simp
      | ok st =>
        cases hing : ing2 st with
        | error e => simp [hing]
        | ok n => simp [hing, exceptOk]

/-- Witness for C6: on the same prepared call, a failing ingest leaves
staging in place and a succeeding one removes it. -/
theorem load_table_cleanup_only_on_success_witness :
    (load_table (some "oa.duckdb") wEnv [] wArgs ingFail).stagingRemoved = false ∧
    (load_table (some "oa.duckdb") wEnv [] wArgs ingPerFile).stagingRemoved = true := by
  constructor
  · exact ((load_table_cleanup_only_on_success (some "oa.duckdb") wEnv [] wArgs ingFail
      wEvs [keyA, keyB] rfl).1
      (PyErr.valueError "Malformed JSON in file part_000.gz") rfl).2
  · exact ((load_table_cleanup_only_on_success (some "oa.duckdb") wEnv [] wArgs ingPerFile
      wEvs [keyA, keyB] rfl).2.1 2 rfl).1

/-- C7: in the download loop, every file whose metadata (size) lookup fails is
skipped — it never enters the download pool (third conjunct) — and an error
line is logged for exactly those files, while (when downloads themselves
succeed) the staged set is exactly the files whose metadata lookup succeeded.
The loop itself is total: a metadata failure is absorbed by the
`try`/`except` and never propagates out of the call. -/
theorem download_pool_skips_failed_metadata
    (meta : String → Option Nat) (dl : String → Bool) (files : List String)
    (hdl : ∀ f ∈ files, (meta f).isSome = true → dl f = true) :
    (downloadPool meta dl files).1 = files.filter (fun f => (meta f).isSome) ∧
    (downloadPool meta dl files).2 =
      (files.filter (fun f => (meta f).isNone)).map
        (fun f => " ERROR getting size for " ++ f) ∧
    (∀ f ∈ files, meta f = none → f ∉ (downloadPool meta dl files).1) := by
  refine ⟨downloadPool_fst meta dl files hdl, downloadPool_snd meta dl files, ?_⟩
  intro f hf hnone hmem
  rw [downloadPool_fst meta dl files hdl] at hmem
  have hs := List.of_mem_filter hmem
  rw [hnone] at hs
  simp at hs

/-- Witness for C7: of three selected files, the metadata lookup fails for
`keyB` only; the pool is exactly the other two. -/
theorem download_pool_skips_failed_metadata_witness :
    (downloadPool w7meta (fun _ => true) [keyA, keyB, keyC]).1 = [keyA, keyC] :=
  (download_pool_skips_failed_metadata w7meta (fun _ => true)
    [keyA, keyB, keyC] (by decide)).1

/-- C9 (code bug): the defaults are resolved as the spec says — `parts` and
`cols` become `"*"`, `limit` becomes the empty suffix, an omitted `start_date`
is filled from `__get_start_date`, and an omitted `end_date` becomes today —
but today is substituted as a `datetime.date` object, so `__get_files` then
calls `date.fromisoformat` on a non-string and the call raises `TypeError`
instead of behaving like the equivalent explicit call (last conjunct: the
same call with an explicit end date string succeeds). -/
theorem load_table_default_end_date_type_error :
    partsResolved wArgsDefaultEnd = PyVal.pyStr "*" ∧
    colsResolved wArgsDefaultEnd = PyVal.pyStr "*" ∧
    limitResolved wArgsDefaultEnd = "" ∧
    endResolved wEnv.today wArgsDefaultEnd = PyVal.pyDate ⟨2025, 9, 1⟩ ∧
    (load_table none wEnv [] wArgsDefaultEnd ingPerFile).result =
      Except.error (PyErr.typeError "fromisoformat: argument must be str") ∧
    prepFiles wEnv wArgsAllDefault =
      ([Ev.listObjects],
        Except.error (PyErr.typeError "fromisoformat: argument must be str")) ∧
    (load_table none wEnv [] wArgs ingPerFile).result =
      Except.ok [⟨"works", true, 2⟩] := by
  exact ⟨rfl, rfl, rfl, rfl, rfl, rfl, rfl⟩

/-- C10: a call that reaches the table statement with zero staged files does
not short-circuit: the load statement is still executed over the empty
staging directory (`Ev.execLoad` occurs) and the call's outcome is exactly
the outcome of that statement. -/
theorem load_table_empty_staging_still_executes
    (persist : Option String) (env : Env) (db : DBState) (a : LoadArgs)
    (ing : List String → Except PyErr Nat) (evs : List Ev)
    (hprep : prepFiles env a = (evs, Except.ok [])) :
    (load_table persist env db a ing).result =
      (ing []).map (tableStep persist (pyToString a.obj_type) db) ∧
    Ev.execLoad ∈ (load_table persist env db a ing).events := by
  unfold load_table
  rw [hprep]
  cases hing : ing [] with
  | error e => exact ⟨by simp [hing, Except.map], by simp [hing]⟩
  | ok n => exact ⟨by simp [hing, Except.map], by simp [hing]⟩

/-- Witness for C10: a window selecting no files still executes the load,
whose "no files found" engine error becomes the call's outcome. -/
theorem load_table_empty_staging_still_executes_witness :
    (load_table none wEnv [] wArgsEmpty ingNoFiles).result =
      Except.error (PyErr.valueError "No files found that match the pattern") :=
  (load_table_empty_staging_still_executes none wEnv [] wArgsEmpty ingNoFiles
    [Ev.listObjects] rfl).1
